import Mathlib

/-!
Shallow embedding of the PayPal payment-session adapter
(`src/core/paypal-base.ts`) and the amount formatter
(`src/core/utils/utils.ts`) of the medusa-payment-paypal plugin.

JavaScript semantics are made explicit:
* a method outcome is `Outcome α`: a returned value, a returned
  normalized provider-error object, or a raw thrown exception;
* `undefined` is `Option.none`; property access on `undefined` throws a
  `TypeError`;
* the remote PayPal SDK is a record of functions each returning
  `Except JsError _`, and every adapter function additionally returns the
  list of remote calls it issued, so frame properties (which remote calls
  happen) are provable.
-/

/-- Line separator, `EOL` from node `os` (the adapter runs on unix hosts). -/
def EOL : String := "\n"

/-- A JavaScript error value as the adapter can observe it in a catch
block: engine `TypeError`s, plain `new Error(message)`, `MedusaError`
(which owns a `code` property that may be `undefined`), provider-shaped
errors carrying `error`/`code`/`detail`, and generic remote failures with
optional `code`/`detail`/`message` properties. -/
inductive JsError where
  | typeError (message : String)
  | jsError (message : String)
  | medusaError (etype : String) (message : String)
  | providerError (error : String) (code : String) (detail : String)
  | remoteError (code : Option String) (detail : Option String) (message : Option String)
deriving DecidableEq, Repr

/-- The single normalized error shape `{error, code, detail}` produced by
`buildError`; `code` is `none` when the caught error owns a `code`
property whose value is `undefined`. -/
structure NormalizedError where
  error : String
  code : Option String
  detail : String
deriving DecidableEq, Repr

/-- Whether the caught error owns a `code` property (`"code" in error`). -/
def hasCodeProp : JsError → Bool
  | .typeError _ => false
  | .jsError _ => false
  | .medusaError _ _ => true
  | .providerError _ _ _ => true
  | .remoteError _ _ _ => true

/-- The value of the `code` property when present (`none` = `undefined`). -/
def codeProp : JsError → Option String
  | .typeError _ => none
  | .jsError _ => none
  | .medusaError _ _ => none
  | .providerError _ c _ => some c
  | .remoteError c _ _ => c

/-- `isPaymentProviderError`: the error carries the
`{error, code, detail}` provider shape. -/
def isPaymentProviderErrorVal : JsError → Bool
  | .providerError _ _ _ => true
  | _ => false

/-- Whether the caught error owns a `detail` property. -/
def hasDetailProp : JsError → Bool
  | .providerError _ _ _ => true
  | .remoteError _ d _ => d.isSome
  | _ => false

/-- The `detail` property value of the caught error. -/
def detailProp : JsError → String
  | .providerError _ _ d => d
  | .remoteError _ d _ => d.getD ""
  | _ => ""

/-- The `message` property of the caught error (`?? ""` applied). -/
def messageProp : JsError → String
  | .typeError m => m
  | .jsError m => m
  | .medusaError _ m => m
  | .providerError _ _ _ => ""
  | .remoteError _ _ m => m.getD ""

/-- The `error` property of the caught error (provider errors only). -/
def errorProp : JsError → String
  | .providerError e _ _ => e
  | _ => ""

/-- `buildError(message, error)` from `paypal-base.ts`: wraps any caught
failure into the `NormalizedError` shape. -/
def buildError (message : String) (e : JsError) : NormalizedError :=
  { error := message
    code := if hasCodeProp e then codeProp e else some "unknown"
    detail :=
      if isPaymentProviderErrorVal e then
        errorProp e ++ EOL ++ detailProp e
      else if hasDetailProp e then
        detailProp e
      else
        messageProp e }

/-- Per-currency options of the `PAYPAL_CURRENCY_CODES` table. -/
structure PaypalCurrencyOptions where
  decimal : Option Bool := none
  places : Option Nat := none
deriving DecidableEq, Repr

/-- The supported paypal currency codes and their options
(`utils.ts`): HUF, JPY and TWD declare `decimal: false`. -/
def PAYPAL_CURRENCY_CODES : List (String × PaypalCurrencyOptions) :=
  [("AUD", {}), ("BRL", {}), ("CAD", {}), ("CNY", {}), ("CZK", {}),
   ("DKK", {}), ("EUR", {}), ("HKD", {}),
   ("HUF", { decimal := some false }),
   ("ILS", {}),
   ("JPY", { decimal := some false }),
   ("MYR", {}), ("MXN", {}),
   ("TWD", { decimal := some false }),
   ("NZD", {}), ("NOK", {}), ("PHP", {}), ("PLN", {}), ("GBP", {}),
   ("RUB", {}), ("SGD", {}), ("SEK", {}), ("CHF", {}), ("THB", {}),
   ("USD", {})]

/-- Uppercase a string (the adapter applies `toUpperCase` to the
currency code). -/
def toUpperStr (s : String) : String :=
  String.mk (s.data.map Char.toUpper)

/-- Round `q * 10^p` half away from zero, the `toFixed` rounding of the
BigNumber backing `convertAmount`, computed on the numerator and
denominator directly. -/
def roundHalfAway (q : Rat) (p : Nat) : Int :=
  let d := q.den
  let a := q.num.natAbs * 10 ^ p
  let m : Nat := (2 * a + d) / (2 * d)
  if q.num < 0 then -(m : Int) else (m : Int)

/-- Render the scaled integer `n` (the amount times `10^precision`) as a
fixed-point decimal string with `precision` fraction digits. -/
def renderFixed (n : Int) (precision : Nat) : String :=
  if precision = 0 then toString n
  else
    let sign := if n < 0 then "-" else ""
    let a := n.natAbs
    let ip := a / 10 ^ precision
    let fp := a % 10 ^ precision
    let fs := toString fp
    let pad := String.mk (List.replicate (precision - fs.length) (Char.ofNat 48))
    sign ++ toString ip ++ "." ++ pad ++ fs

/-- The remote amount representation `{ value, currency_code }`. -/
structure Amount where
  currency_code : String
  value : String
deriving DecidableEq, Repr

/-- `convertAmount(amount, currency)` from `utils.ts`: uppercase the
currency, require it in the table, resolve the precision
(`decimal === false ? 0 : places ?? 2`), render the rounded fixed-point
value, and reject strings longer than 32 characters. Throws (returns
`.error`) on unsupported currency or overlong value. -/
def convertAmount (amount : Rat) (currency : String) : Except JsError Amount :=
  let currencyU := toUpperStr currency
  match PAYPAL_CURRENCY_CODES.lookup currencyU with
  | none =>
      .error (.jsError ("Currency " ++ currency ++ " is not supported by Paypal"))
  | some currencyOptions =>
      let precision : Nat :=
        if currencyOptions.decimal = some false then 0
        else currencyOptions.places.getD 2
      let value := renderFixed (roundHalfAway amount precision) precision
      if value.length > 32 then
        .error (.jsError ("Amount string exceeds 32 character limit: " ++ value))
      else
        .ok { value := value, currency_code := currencyU }

/-- Equality on `Except` results is decidable when it is on both sides. -/
instance exceptDecEq {ε α : Type} [DecidableEq ε] [DecidableEq α] :
    DecidableEq (Except ε α) := fun x y =>
  match x, y with
  | .ok a, .ok b =>
      if h : a = b then isTrue (by rw [h]) else isFalse (fun hc => by cases hc; exact h rfl)
  | .ok _, .error _ => isFalse (fun hc => by cases hc)
  | .error _, .ok _ => isFalse (fun hc => by cases hc)
  | .error a, .error b =>
      if h : a = b then isTrue (by rw [h]) else isFalse (fun hc => by cases hc; exact h rfl)

/-- A capture recorded under a purchase unit's payments. -/
structure Capture where
  id : String
deriving DecidableEq, Repr

/-- An authorization recorded under a purchase unit's payments. -/
structure Authorization where
  id : String
deriving DecidableEq, Repr

/-- The `payments` record of a purchase unit; `captures` may be absent
(`undefined`) — the adapter reads it both with and without optional
chaining. -/
structure Payments where
  authorizations : List Authorization
  captures : Option (List Capture)
deriving DecidableEq, Repr

/-- A purchase unit of an order or of a stored session snapshot. -/
structure PurchaseUnit where
  amount : Amount
  payments : Payments
deriving DecidableEq, Repr

/-- A remote order / stored session-data snapshot: the adapter reads
`id`, `status`, `invoice_id` and `purchase_units` from it. `status` and
`invoice_id` may be absent. -/
structure PaypalOrder where
  id : String
  status : Option String
  invoice_id : Option String
  purchase_units : List PurchaseUnit
deriving DecidableEq, Repr

/-- A purchase unit of a `createOrder` request. -/
structure OrderPurchaseUnitRequest where
  custom_id : Option String
  amount : Amount
deriving DecidableEq, Repr

/-- A `createOrder` request body. -/
structure CreateOrderRequest where
  intent : String
  purchase_units : List OrderPurchaseUnitRequest
deriving DecidableEq, Repr

/-- The value object of the order patch issued by `updatePayment`. -/
structure PatchValue where
  amount : Amount
deriving DecidableEq, Repr

/-- One JSON-Patch operation of `patchOrder`. -/
structure PatchOperation where
  op : String
  path : String
  value : PatchValue
deriving DecidableEq, Repr

/-- One remote SDK call as observed on the wire, for frame reasoning. -/
inductive RemoteCall where
  | getOrder (id : String)
  | createOrder (request : CreateOrderRequest)
  | patchOrder (id : String) (ops : List PatchOperation)
  | captureAuthorizedPayment (id : String)
  | cancelAuthorizedPayment (id : String)
  | refundPayment (captureId : String) (amount : Option Amount)
deriving DecidableEq, Repr

/-- The injected remote PayPal SDK capability set: each call either
succeeds with a value or rejects with a JavaScript error. -/
structure Remote where
  getOrder : String → Except JsError PaypalOrder
  createOrder : CreateOrderRequest → Except JsError PaypalOrder
  patchOrder : String → List PatchOperation → Except JsError Unit
  captureAuthorizedPayment : String → Except JsError Unit
  cancelAuthorizedPayment : String → Except JsError Unit
  refundPayment : String → Option Amount → Except JsError Unit

/-- Plugin options; `capture` selects the CAPTURE vs AUTHORIZE intent. -/
structure PaypalOptions where
  capture : Bool
deriving DecidableEq, Repr

/-- What a lifecycle method call can produce for its caller: a returned
value, a returned `NormalizedError` object, or a raw exception escaping
the method. -/
inductive Outcome (α : Type) where
  | ok (value : α)
  | err (e : NormalizedError)
  | thrown (e : JsError)
deriving DecidableEq, Repr

/-- The session statuses of the host contract used by the adapter. -/
inductive PaymentSessionStatus where
  | pending
  | requiresMore
  | authorized
  | canceled
  | captured
  | failed
deriving DecidableEq, Repr

/-- The `PaypalOrderStatus` enum values (string constants of the remote
API, per the spec data model). -/
def PaypalOrderStatus.CREATED : String := "CREATED"

/-- Remote order status SAVED. -/
def PaypalOrderStatus.SAVED : String := "SAVED"

/-- Remote order status APPROVED. -/
def PaypalOrderStatus.APPROVED : String := "APPROVED"

/-- Remote order status PAYER_ACTION_REQUIRED. -/
def PaypalOrderStatus.PAYER_ACTION_REQUIRED : String := "PAYER_ACTION_REQUIRED"

/-- Remote order status VOIDED. -/
def PaypalOrderStatus.VOIDED : String := "VOIDED"

/-- Remote order status COMPLETED. -/
def PaypalOrderStatus.COMPLETED : String := "COMPLETED"

/-- JavaScript truthiness of an optional string (`!!x`): absent and
empty strings are falsy. -/
def truthyStr : Option String → Bool
  | none => false
  | some s => !(s = "")

/-- JavaScript truthiness of `captures?.length`: truthy iff the list is
present and non-empty. -/
def capturesTruthy : Option (List Capture) → Bool
  | none => false
  | some l => !l.isEmpty

/-- `retrievePayment` data flow: `getOrder(paymentSessionData.id)`; the
catch block only constructs a `NormalizedError` (never returned, the
`let` discards it) and the method falls through returning `undefined`. -/
def retrievePaymentData (r : Remote) (paymentSessionData : PaypalOrder) :
    Option PaypalOrder × List RemoteCall :=
  match r.getOrder paymentSessionData.id with
  | .ok o => (some o, [.getOrder paymentSessionData.id])
  | .error e =>
      let _ := buildError "An error occurred in retrievePayment" e
      (none, [.getOrder paymentSessionData.id])

/-- `retrievePayment` as a lifecycle method: it never throws and never
returns an error object; on remote failure it returns `undefined`. -/
def retrievePayment (r : Remote) (paymentSessionData : PaypalOrder) :
    Outcome (Option PaypalOrder) × List RemoteCall :=
  (.ok (retrievePaymentData r paymentSessionData).1,
   (retrievePaymentData r paymentSessionData).2)

/-- The status switch of `getPaymentStatus` over `order.status`
(`undefined` hits the default branch). -/
def mapOrderStatus (status : Option String) : PaymentSessionStatus :=
  if status = some PaypalOrderStatus.CREATED then .pending
  else if status = some PaypalOrderStatus.SAVED then .requiresMore
  else if status = some PaypalOrderStatus.APPROVED then .requiresMore
  else if status = some PaypalOrderStatus.PAYER_ACTION_REQUIRED then .requiresMore
  else if status = some PaypalOrderStatus.VOIDED then .canceled
  else if status = some PaypalOrderStatus.COMPLETED then .authorized
  else .pending

/-- `getPaymentStatus`: retrieve the order, then switch on its status.
There is no catch: when the retrieval fails the method dereferences
`undefined` and the `TypeError` escapes. -/
def getPaymentStatus (r : Remote) (paymentSessionData : PaypalOrder) :
    Outcome PaymentSessionStatus × List RemoteCall :=
  match retrievePaymentData r paymentSessionData with
  | (none, calls) =>
      (.thrown (.typeError "Cannot read properties of undefined (reading status)"), calls)
  | (some order, calls) => (.ok (mapOrderStatus order.status), calls)

/-- The `{data, status}` payload of `authorizePayment`. -/
structure AuthorizeResult where
  data : Option PaypalOrder
  status : PaymentSessionStatus
deriving DecidableEq, Repr

/-- `authorizePayment`: inside one try block, compute the status then
re-retrieve the order; any failure (including the `TypeError` from a
failed retrieval inside `getPaymentStatus`) is normalized. -/
def authorizePayment (r : Remote) (paymentSessionData : PaypalOrder) :
    Outcome AuthorizeResult × List RemoteCall :=
  match getPaymentStatus r paymentSessionData with
  | (.thrown e, calls) =>
      (.err (buildError "An error occurred in authorizePayment" e), calls)
  | (.err e, calls) => (.err e, calls)
  | (.ok status, calls) =>
      let (data, calls2) := retrievePaymentData r paymentSessionData
      (.ok { data := data, status := status }, calls ++ calls2)

/-- Read `purchase_units[0].payments.authorizations[0].id`; in
JavaScript a missing unit or authorization makes the chained access
throw a `TypeError`. -/
def firstAuthorizationId (purchase_units : List PurchaseUnit) : Except JsError String :=
  match purchase_units with
  | [] => .error (.typeError "Cannot read properties of undefined (reading payments)")
  | pu :: _ =>
      match pu.payments.authorizations with
      | [] => .error (.typeError "Cannot read properties of undefined (reading id)")
      | a :: _ => .ok a.id

/-- Read `payments.captures[0].id` of the first purchase unit; absent or
empty captures make the access throw a `TypeError`. -/
def firstCaptureId (purchase_units : List PurchaseUnit) : Except JsError String :=
  match purchase_units with
  | [] => .error (.typeError "Cannot read properties of undefined (reading payments)")
  | pu :: _ =>
      match pu.payments.captures with
      | none => .error (.typeError "Cannot read properties of undefined (reading 0)")
      | some [] => .error (.typeError "Cannot read properties of undefined (reading id)")
      | some (c :: _) => .ok c.id

/-- `cancelPayment`: retrieve the order (a failed retrieval leaves
`order` undefined and the status read before the try block throws);
short-circuit when already VOIDED or COMPLETED with a truthy
`invoice_id`; otherwise, inside the try block, refund the first capture
of the first unit when any unit has a truthy capture list, else void the
first authorization of the first unit, then re-retrieve. -/
def cancelPayment (r : Remote) (paymentSessionData : PaypalOrder) :
    Outcome (Option PaypalOrder) × List RemoteCall :=
  match retrievePaymentData r paymentSessionData with
  | (none, calls) =>
      (.thrown (.typeError "Cannot read properties of undefined (reading status)"), calls)
  | (some order, calls) =>
      let isAlreadyCanceled := order.status = some PaypalOrderStatus.VOIDED
      let isCanceledAndFullyRefunded :=
        order.status = some PaypalOrderStatus.COMPLETED ∧ truthyStr order.invoice_id = true
      if isAlreadyCanceled ∨ isCanceledAndFullyRefunded then
        (.ok (some order), calls)
      else
        let purchase_units := paymentSessionData.purchase_units
        let isAlreadyCaptured := purchase_units.any fun pu => capturesTruthy pu.payments.captures
        if isAlreadyCaptured then
          match firstCaptureId purchase_units with
          | .error e => (.err (buildError "An error occurred in cancelPayment" e), calls)
          | .ok payId =>
              match r.refundPayment payId none with
              | .error e =>
                  (.err (buildError "An error occurred in cancelPayment" e),
                   calls ++ [.refundPayment payId none])
              | .ok _ =>
                  let (o, calls2) := retrievePaymentData r paymentSessionData
                  (.ok o, calls ++ [.refundPayment payId none] ++ calls2)
        else
          match firstAuthorizationId purchase_units with
          | .error e => (.err (buildError "An error occurred in cancelPayment" e), calls)
          | .ok authId =>
              match r.cancelAuthorizedPayment authId with
              | .error e =>
                  (.err (buildError "An error occurred in cancelPayment" e),
                   calls ++ [.cancelAuthorizedPayment authId])
              | .ok _ =>
                  let (o, calls2) := retrievePaymentData r paymentSessionData
                  (.ok o, calls ++ [.cancelAuthorizedPayment authId] ++ calls2)

/-- `capturePayment`: the first authorization id is read BEFORE the try
block, so a missing unit or authorization throws a raw `TypeError`;
inside the try block the capture call is issued and, on success, the
order re-retrieved. -/
def capturePayment (r : Remote) (paymentSessionData : PaypalOrder) :
    Outcome (Option PaypalOrder) × List RemoteCall :=
  match firstAuthorizationId paymentSessionData.purchase_units with
  | .error e => (.thrown e, [])
  | .ok id =>
      match r.captureAuthorizedPayment id with
      | .error e =>
          (.err (buildError "an error occurred in capturePayment" e),
           [.captureAuthorizedPayment id])
      | .ok _ =>
          let (o, calls) := retrievePaymentData r paymentSessionData
          (.ok o, .captureAuthorizedPayment id :: calls)

/-- `deletePayment`: passthrough, the remote API has no delete. -/
def deletePayment (_r : Remote) (paymentSessionData : PaypalOrder) :
    Outcome PaypalOrder × List RemoteCall :=
  (.ok paymentSessionData, [])

/-- `refundPayment`: everything runs inside one try block. Reading
`purchaseUnit.payments` throws when there is no first unit; an untruthy
capture check throws the uncaptured-refund `Error`; then the first
capture id of the FIRST unit is read (throwing when only a later unit
has the capture), the amount converted in the first unit's currency, the
refund issued and the order re-retrieved. -/
def refundPayment (r : Remote) (paymentSessionData : PaypalOrder) (refundAmount : Rat) :
    Outcome (Option PaypalOrder) × List RemoteCall :=
  match paymentSessionData.purchase_units with
  | [] =>
      (.err (buildError "An error occurred in refundPayment"
        (.typeError "Cannot read properties of undefined (reading payments)")), [])
  | purchaseUnit :: _ =>
      let isAlreadyCaptured :=
        paymentSessionData.purchase_units.any fun pu => capturesTruthy pu.payments.captures
      if !isAlreadyCaptured then
        (.err (buildError "An error occurred in refundPayment"
          (.jsError "Cannot refund an uncaptured payment")), [])
      else
        match firstCaptureId paymentSessionData.purchase_units with
        | .error e => (.err (buildError "An error occurred in refundPayment" e), [])
        | .ok paymentId =>
            match convertAmount refundAmount purchaseUnit.amount.currency_code with
            | .error e => (.err (buildError "An error occurred in refundPayment" e), [])
            | .ok amt =>
                match r.refundPayment paymentId (some amt) with
                | .error e =>
                    (.err (buildError "An error occurred in refundPayment" e),
                     [.refundPayment paymentId (some amt)])
                | .ok _ =>
                    let (o, calls) := retrievePaymentData r paymentSessionData
                    (.ok o, .refundPayment paymentId (some amt) :: calls)

/-- The `context` record of a provider-session input. -/
structure PayContext where
  session_id : Option String
deriving DecidableEq, Repr

/-- A provider-session input as the host passes it: `context` is absent
on some update inputs, `data` is the stored session snapshot. -/
structure ProviderSessionInput where
  context : Option PayContext
  amount : Rat
  currency_code : String
  data : PaypalOrder
deriving Repr

/-- The `{data}` response wrapper of initiate/update. -/
structure SessionResponse where
  data : PaypalOrder
deriving DecidableEq, Repr

/-- `initiatePayment`: destructuring `input.context` happens BEFORE the
try block (absent context throws a raw `TypeError`); inside the try
block the intent is chosen from the `capture` option and `createOrder`
is issued with a single purchase unit carrying the formatted amount and
`custom_id = session_id`; failures are normalized. -/
def initiatePayment (opts : PaypalOptions) (r : Remote) (input : ProviderSessionInput) :
    Outcome SessionResponse × List RemoteCall :=
  match input.context with
  | none =>
      (.thrown (.typeError "Cannot destructure property session_id of undefined"), [])
  | some ctx =>
      match convertAmount input.amount input.currency_code with
      | .error e =>
          (.err (buildError
            "An error ocurred in InitiatePayment during the creation of the PayPal payment intent" e),
           [])
      | .ok amt =>
          let request : CreateOrderRequest :=
            { intent := if opts.capture then "CAPTURE" else "AUTHORIZE"
              purchase_units := [{ custom_id := ctx.session_id, amount := amt }] }
          match r.createOrder request with
          | .error e =>
              (.err (buildError
                "An error ocurred in InitiatePayment during the creation of the PayPal payment intent" e),
               [.createOrder request])
          | .ok response => (.ok { data := response }, [.createOrder request])

/-- The JSON-Patch operation list `updatePayment` sends. -/
def updatePatchOps (amt : Amount) : List PatchOperation :=
  [{ op := "replace"
     path := "/purchase_units/@reference_id=='default'"
     value := { amount := amt } }]

/-- The catch branch of `updatePayment`: re-run `initiatePayment` with
the same input; when that call itself rejects, return a
`NormalizedError` wrapping the ORIGINAL error `origErr`; otherwise pass
its outcome (success value or returned error object) through. -/
def updateFallback (opts : PaypalOptions) (r : Remote) (input : ProviderSessionInput)
    (origErr : JsError) (calls0 : List RemoteCall) :
    Outcome SessionResponse × List RemoteCall :=
  match initiatePayment opts r input with
  | (.thrown _, calls) =>
      (.err (buildError "An error occurred in updatePayment" origErr), calls0 ++ calls)
  | (.ok response, calls) => (.ok response, calls0 ++ calls)
  | (.err e, calls) => (.err e, calls0 ++ calls)

/-- `updatePayment`: inside the try block, format the new amount and
patch the existing order `input.data.id`; on success return
`{data: input.data}` (the caller-supplied snapshot, no re-retrieval); on
any failure in the try block run the fallback. -/
def updatePayment (opts : PaypalOptions) (r : Remote) (input : ProviderSessionInput) :
    Outcome SessionResponse × List RemoteCall :=
  let id := input.data.id
  match convertAmount input.amount input.currency_code with
  | .error e => updateFallback opts r input e []
  | .ok amt =>
      match r.patchOrder id (updatePatchOps amt) with
      | .ok _ => (.ok { data := input.data }, [.patchOrder id (updatePatchOps amt)])
      | .error e => updateFallback opts r input e [.patchOrder id (updatePatchOps amt)]

/-- A JavaScript primitive value of a generic data payload, with its
truthiness. -/
inductive JsPrim where
  | num (value : Rat)
  | str (value : String)
  | jsBool (value : Bool)
  | jsNull
deriving DecidableEq, Repr

/-- JavaScript truthiness of a primitive. -/
def truthyPrim : JsPrim → Bool
  | .num q => !(q = 0)
  | .str s => !(s = "")
  | .jsBool b => b
  | .jsNull => false

/-- JavaScript truthiness of an optional field (`undefined` is falsy). -/
def truthyField : Option JsPrim → Bool
  | none => false
  | some p => truthyPrim p

/-- A generic `Record<string, unknown>` payload as a field list. -/
abbrev DataPayload : Type := List (String × JsPrim)

/-- `updatePaymentData(sessionId, data)`: inside a try block, a truthy
`data.amount` throws a `MedusaError` (INVALID_DATA) which the catch
normalizes; otherwise the payload is returned unchanged. No remote call
is ever issued. -/
def updatePaymentData (_r : Remote) (_sessionId : String) (data : DataPayload) :
    Outcome DataPayload × List RemoteCall :=
  if truthyField (data.lookup "amount") then
    (.err (buildError "An error occurred in updatePaymentData"
      (.medusaError "invalid_data" "Cannot update amount, use updatePayment instead")), [])
  else
    (.ok data, [])

/-- A HATEOAS link of an authorization resource. -/
structure AuthLink where
  rel : Option String
  href : Option String
deriving DecidableEq, Repr

/-- The authorization argument of `retrieveOrderFromAuth`. -/
structure AuthorizationResource where
  links : List AuthLink
deriving DecidableEq, Repr

/-- `retrieveOrderFromAuth`: find the link whose rel is `"up"`; the
found link's `href` is dereferenced WITHOUT a null check, so a missing
link (or missing href) throws a raw `TypeError`. The trailing path
segment of the href is the order id; an empty segment returns `null`,
otherwise `getOrder` is issued — outside any try block, so a remote
failure also escapes raw. -/
def splitChar (c : Char) : List Char → List (List Char)
  | [] => [[]]
  | x :: xs =>
      let r := splitChar c xs
      if x = c then [] :: r
      else
        match r with
        | [] => [[x]]
        | y :: ys => (x :: y) :: ys

/-- `href.split("/")` as on character lists. -/
def splitSlash (s : String) : List String :=
  (splitChar (Char.ofNat 47) s.data).map String.mk

/-- The body of `retrieveOrderFromAuth` (see `splitChar` doc above). -/
def retrieveOrderFromAuth (r : Remote) (authorization : AuthorizationResource) :
    Outcome (Option PaypalOrder) × List RemoteCall :=
  match authorization.links.find? (fun l => l.rel == some "up") with
  | none =>
      (.thrown (.typeError "Cannot read properties of undefined (reading href)"), [])
  | some link =>
      match link.href with
      | none =>
          (.thrown (.typeError "Cannot read properties of undefined (reading split)"), [])
      | some href =>
          let parts := splitSlash href
          let orderId := (parts.getLast?).getD ""
          if orderId = "" then
            (.ok none, [])
          else
            match r.getOrder orderId with
            | .ok o => (.ok (some o), [.getOrder orderId])
            | .error e => (.thrown e, [.getOrder orderId])

/-- The host actions a webhook can map to. -/
inductive PaymentAction where
  | authorized
  | successful
  | failedAction
  | notSupported
deriving DecidableEq, Repr

/-- The `{amount, session_id}` payload of a webhook action; the numeric
amount is kept as the raw `parseFloat` argument string. -/
structure WebhookEventData where
  amountValue : String
  session_id : String
deriving DecidableEq, Repr

/-- A webhook interpretation result. -/
structure WebhookActionResult where
  action : PaymentAction
  data : Option WebhookEventData
deriving DecidableEq, Repr

/-- `getWebhookActionAndData`: with NO try block it reads the first
purchase unit's first capture id, then its first authorization id (each
read throwing a raw `TypeError` when missing), then switches on an event
discriminator that is hard-coded to `"unknown"`, so the reachable result
is always NOT_SUPPORTED. -/
def getWebhookActionAndData (_r : Remote) (webhookData : PaypalOrder) :
    Outcome WebhookActionResult × List RemoteCall :=
  match webhookData.purchase_units with
  | [] =>
      (.thrown (.typeError "Cannot read properties of undefined (reading payments)"), [])
  | purchaseUnit :: _ =>
      match purchaseUnit.payments.captures with
      | none =>
          (.thrown (.typeError "Cannot read properties of undefined (reading 0)"), [])
      | some [] =>
          (.thrown (.typeError "Cannot read properties of undefined (reading id)"), [])
      | some (c :: _) =>
          match purchaseUnit.payments.authorizations with
          | [] =>
              (.thrown (.typeError "Cannot read properties of undefined (reading id)"), [])
          | a :: _ =>
              let paymentId := c.id
              let authorizationId := a.id
              let amountValue := purchaseUnit.amount.value
              let event := "unknown"
              if event = "authorized" then
                (.ok { action := .authorized
                       data := some { amountValue := amountValue, session_id := authorizationId } }, [])
              else if event = "succeeded" then
                (.ok { action := .successful
                       data := some { amountValue := amountValue, session_id := paymentId } }, [])
              else if event = "failed" then
                (.ok { action := .failedAction
                       data := some { amountValue := amountValue, session_id := paymentId } }, [])
              else
                (.ok { action := .notSupported, data := none }, [])

/-- Whether a method outcome is a raw escaped exception. -/
def isThrown {α : Type} : Outcome α → Bool
  | .thrown _ => true
  | _ => false

/-- Whether a method outcome is a returned `NormalizedError` object. -/
def isErr {α : Type} : Outcome α → Bool
  | .err _ => true
  | _ => false

/-- Remote mutation calls: everything except a plain order read. -/
def isMutationCall : RemoteCall → Bool
  | .getOrder _ => false
  | _ => true

/-- Refund calls. -/
def isRefundCall : RemoteCall → Bool
  | .refundPayment _ _ => true
  | _ => false

/-- Authorization-void calls. -/
def isVoidCall : RemoteCall → Bool
  | .cancelAuthorizedPayment _ => true
  | _ => false

/-- Order reads. -/
def isGetOrderCall : RemoteCall → Bool
  | .getOrder _ => true
  | _ => false

/-- Fixture: ten dollars as the remote amount representation. -/
def usd10 : Amount := { currency_code := "USD", value := "10.00" }

/-- Fixture: a purchase unit holding one authorization and no captures
list. -/
def puAuthOnly : PurchaseUnit :=
  { amount := usd10
    payments := { authorizations := [{ id := "AUTH1" }], captures := none } }

/-- Fixture: a purchase unit holding one capture. -/
def puCapturedUnit : PurchaseUnit :=
  { amount := usd10
    payments := { authorizations := [{ id := "AUTH2" }], captures := some [{ id := "CAP1" }] } }

/-- Fixture: a remote order in status APPROVED. -/
def orderApproved : PaypalOrder :=
  { id := "REMOTE1", status := some "APPROVED", invoice_id := none
    purchase_units := [puCapturedUnit] }

/-- Fixture: a remote order already VOIDED. -/
def orderVoided : PaypalOrder :=
  { id := "REMOTEV", status := some "VOIDED", invoice_id := none
    purchase_units := [] }

/-- Fixture: session data with a single authorized-only purchase unit. -/
def sdAuthOnly : PaypalOrder :=
  { id := "sessA", status := none, invoice_id := none, purchase_units := [puAuthOnly] }

/-- Fixture: session data whose first purchase unit has a capture. -/
def sdCaptured : PaypalOrder :=
  { id := "sessC", status := none, invoice_id := none, purchase_units := [puCapturedUnit] }

/-- Fixture: session data with an empty purchase-unit list. -/
def sdNoUnits : PaypalOrder :=
  { id := "sessE", status := none, invoice_id := none, purchase_units := [] }

/-- Fixture: the capture sits only in the SECOND purchase unit while the
first has none. -/
def sdMismatch : PaypalOrder :=
  { id := "sessM", status := none, invoice_id := none
    purchase_units := [puAuthOnly, puCapturedUnit] }

/-- Fixture: session data whose remote order is already voided. -/
def sdVoided : PaypalOrder :=
  { id := "sessV", status := none, invoice_id := none, purchase_units := [puAuthOnly] }

/-- Fixture remote: every call succeeds; `getOrder` answers the voided
order for the voided session and the approved order otherwise. -/
def remoteOk : Remote :=
  { getOrder := fun id => if id = "sessV" then .ok orderVoided else .ok orderApproved
    createOrder := fun _ => .ok orderApproved
    patchOrder := fun _ _ => .ok ()
    captureAuthorizedPayment := fun _ => .ok ()
    cancelAuthorizedPayment := fun _ => .ok ()
    refundPayment := fun _ _ => .ok () }

/-- Fixture: the failure every call of `remoteDown` rejects with. -/
def downErr : JsError :=
  .remoteError (some "503") (some "service unavailable") none

/-- Fixture remote: every call rejects. -/
def remoteDown : Remote :=
  { getOrder := fun _ => .error downErr
    createOrder := fun _ => .error downErr
    patchOrder := fun _ _ => .error downErr
    captureAuthorizedPayment := fun _ => .error downErr
    cancelAuthorizedPayment := fun _ => .error downErr
    refundPayment := fun _ _ => .error downErr }

/-- Fixture: the patch rejection of `remotePatchDown`. -/
def patchErr : JsError :=
  .remoteError (some "422") (some "order already approved") none

/-- Fixture remote: only `patchOrder` rejects. -/
def remotePatchDown : Remote :=
  { remoteOk with patchOrder := fun _ _ => .error patchErr }

/-- Fixture: a full provider-session input with a context. -/
def inputFull : ProviderSessionInput :=
  { context := some { session_id := some "sess1" }
    amount := 10, currency_code := "usd", data := sdAuthOnly }

/-- Fixture: a provider-session input without a context. -/
def inputNoContext : ProviderSessionInput :=
  { context := none, amount := 10, currency_code := "usd", data := sdAuthOnly }

/-- Fixture: an authorization whose links carry no `"up"` relation. -/
def authNoUp : AuthorizationResource :=
  { links := [{ rel := some "self", href := some "https://api.test/v2/payments/authorizations/AUTH1" }] }

/-- Fixture: an authorization with an `"up"` link pointing at an order. -/
def authWithUp : AuthorizationResource :=
  { links := [{ rel := some "self", href := some "https://api.test/v2/payments/authorizations/AUTH1" },
              { rel := some "up", href := some "https://api.test/v2/checkout/orders/ORD9" }] }

/-- The status table exactly as the spec words it (refinement reference
for comparison with the source's switch): CREATED maps to PENDING;
SAVED, APPROVED and PAYER_ACTION_REQUIRED map to REQUIRES_MORE; VOIDED
maps to CANCELED; COMPLETED maps to AUTHORIZED; every other status maps
to PENDING. -/
def specStatusTable (status : Option String) : PaymentSessionStatus :=
  if status = some "CREATED" then .pending
  else if status = some "SAVED" ∨ status = some "APPROVED" ∨
          status = some "PAYER_ACTION_REQUIRED" then .requiresMore
  else if status = some "VOIDED" then .canceled
  else if status = some "COMPLETED" then .authorized
  else .pending

/-- The source's switch agrees with the spec's table on every status. -/
theorem mapOrderStatus_eq_specTable (s : Option String) :
    mapOrderStatus s = specStatusTable s := by
  unfold mapOrderStatus specStatusTable PaypalOrderStatus.CREATED PaypalOrderStatus.SAVED
    PaypalOrderStatus.APPROVED PaypalOrderStatus.PAYER_ACTION_REQUIRED
    PaypalOrderStatus.VOIDED PaypalOrderStatus.COMPLETED
  split_ifs <;> simp_all

/-- Claim C2: for every session data whose retrieval yields a remote
order, `getPaymentStatus` returns the session status determined solely
by the order's status field via the fixed table (CREATED to PENDING;
SAVED, APPROVED, PAYER_ACTION_REQUIRED to REQUIRES_MORE; VOIDED to
CANCELED; COMPLETED to AUTHORIZED; anything else to PENDING, without
failing). -/
theorem getPaymentStatus_table (r : Remote) (sd order : PaypalOrder)
    (h : r.getOrder sd.id = .ok order) :
    (getPaymentStatus r sd).1 = .ok (specStatusTable order.status) := by
  simp [getPaymentStatus, retrievePaymentData, h, mapOrderStatus_eq_specTable]

/-- Witness for C2 at a concrete remote and session. -/
theorem getPaymentStatus_table_inst :
    (getPaymentStatus remoteOk sdAuthOnly).1 = .ok (specStatusTable orderApproved.status) :=
  getPaymentStatus_table remoteOk sdAuthOnly orderApproved (by decide)

/-- Claim C3: when the freshly retrieved order is VOIDED, or COMPLETED
with a truthy `invoice_id`, `cancelPayment` returns that order unchanged
and issues zero remote mutation calls (its only remote call is the
retrieval read). -/
theorem cancelPayment_shortCircuit (r : Remote) (sd order : PaypalOrder)
    (h : r.getOrder sd.id = .ok order)
    (hsc : order.status = some PaypalOrderStatus.VOIDED ∨
      (order.status = some PaypalOrderStatus.COMPLETED ∧ truthyStr order.invoice_id = true)) :
    cancelPayment r sd = (.ok (some order), [.getOrder sd.id]) ∧
    (cancelPayment r sd).2.filter isMutationCall = [] := by
  have hmain : cancelPayment r sd = (.ok (some order), [.getOrder sd.id]) := by
    unfold cancelPayment
    simp only [retrievePaymentData, h]
    rw [if_pos hsc]
  exact ⟨hmain, by rw [hmain]; simp [isMutationCall]⟩

/-- Witness for C3: a voided order short-circuits. -/
theorem cancelPayment_shortCircuit_inst :
    cancelPayment remoteOk sdVoided = (.ok (some orderVoided), [.getOrder "sessV"]) ∧
    (cancelPayment remoteOk sdVoided).2.filter isMutationCall = [] :=
  cancelPayment_shortCircuit remoteOk sdVoided orderVoided (by decide) (Or.inl (by decide))

/-- Claim C6: when the remote `getOrder` call fails, `retrievePayment`
catches the failure (its catch block builds a `NormalizedError` and
discards it) and returns `undefined`: neither an order nor an error
object, and it does not raise. -/
theorem retrievePayment_undefined_on_failure (r : Remote) (sd : PaypalOrder) (e : JsError)
    (h : r.getOrder sd.id = .error e) :
    retrievePayment r sd = (.ok none, [.getOrder sd.id]) := by
  simp [retrievePayment, retrievePaymentData, h]

/-- Witness for C6 on a remote whose every call rejects. -/
theorem retrievePayment_undefined_on_failure_inst :
    retrievePayment remoteDown sdAuthOnly = (.ok none, [.getOrder "sessA"]) :=
  retrievePayment_undefined_on_failure remoteDown sdAuthOnly downErr (by decide)

/-- Counterexample for C9: the payload `{amount: 0}` DOES contain an
`amount` field, yet `updatePaymentData` returns the payload unchanged
instead of the invalid-data `NormalizedError`, because the source guard
is the truthiness test `if (data.amount)` and `0` is falsy. -/
theorem updatePaymentData_falsyAmount_cex :
    updatePaymentData remoteOk "sess1" [("amount", JsPrim.num 0)] =
      (.ok [("amount", JsPrim.num 0)], []) := by decide

/-- Claim C9 amended: a payload whose `amount` field is present AND
truthy gets the invalid-data `NormalizedError`; a payload without an
`amount` field, or with a falsy one, is returned unchanged; no remote
call is issued in either case. -/
theorem updatePaymentData_truthyGuard (r : Remote) (sid : String) (data : DataPayload) :
    (truthyField (data.lookup "amount") = true →
      updatePaymentData r sid data =
        (.err (buildError "An error occurred in updatePaymentData"
          (.medusaError "invalid_data" "Cannot update amount, use updatePayment instead")), [])) ∧
    (truthyField (data.lookup "amount") = false →
      updatePaymentData r sid data = (.ok data, [])) := by
  constructor <;> intro h <;> simp [updatePaymentData, h]

/-- Witness for amended C9 at a truthy and at an absent amount field. -/
theorem updatePaymentData_truthyGuard_inst :
    updatePaymentData remoteOk "sess1" [("amount", JsPrim.num 10)] =
      (.err (buildError "An error occurred in updatePaymentData"
        (.medusaError "invalid_data" "Cannot update amount, use updatePayment instead")), []) ∧
    updatePaymentData remoteOk "sess1" [("note", JsPrim.str "hi")] =
      (.ok [("note", JsPrim.str "hi")], []) :=
  ⟨(updatePaymentData_truthyGuard remoteOk "sess1" [("amount", JsPrim.num 10)]).1 (by decide),
   (updatePaymentData_truthyGuard remoteOk "sess1" [("note", JsPrim.str "hi")]).2 (by decide)⟩

/-- Claim C10: when the remote patch succeeds, `updatePayment` returns
`{data: input.data}` — the caller-supplied stale snapshot — and issues
no order re-retrieval. -/
theorem updatePayment_returns_stale_data (opts : PaypalOptions) (r : Remote)
    (input : ProviderSessionInput) (amt : Amount)
    (hconv : convertAmount input.amount input.currency_code = .ok amt)
    (hpatch : r.patchOrder input.data.id (updatePatchOps amt) = .ok ()) :
    updatePayment opts r input =
      (.ok { data := input.data }, [.patchOrder input.data.id (updatePatchOps amt)]) ∧
    (updatePayment opts r input).2.filter isGetOrderCall = [] := by
  have hmain : updatePayment opts r input =
      (.ok { data := input.data }, [.patchOrder input.data.id (updatePatchOps amt)]) := by
    simp [updatePayment, hconv, hpatch]
  exact ⟨hmain, by rw [hmain]; simp [isGetOrderCall]⟩

/-- Witness for C10 at a concrete input. -/
theorem updatePayment_returns_stale_data_inst :
    updatePayment { capture := true } remoteOk inputFull =
      (.ok { data := sdAuthOnly }, [.patchOrder "sessA" (updatePatchOps usd10)]) ∧
    (updatePayment { capture := true } remoteOk inputFull).2.filter isGetOrderCall = [] :=
  updatePayment_returns_stale_data { capture := true } remoteOk inputFull usd10
    (by decide) (by decide)

/-- Claim C7: when the remote patch fails, `updatePayment` does not
surface the patch error: it re-runs `initiatePayment` on the same input
(new amount and currency) and returns that call's own outcome; and when
the fallback itself throws (the only way: the input carries no context,
so the pre-try destructuring rejects), `updatePayment` returns a
`NormalizedError` wrapping the ORIGINAL patch error, not the fallback's
exception. -/
theorem updatePayment_fallback_wrapsOriginal (opts : PaypalOptions) (r : Remote)
    (input : ProviderSessionInput) (amt : Amount) (e : JsError)
    (hconv : convertAmount input.amount input.currency_code = .ok amt)
    (hpatch : r.patchOrder input.data.id (updatePatchOps amt) = .error e) :
    (input.context = none →
      updatePayment opts r input =
        (.err (buildError "An error occurred in updatePayment" e),
         [.patchOrder input.data.id (updatePatchOps amt)])) ∧
    (∀ ctx, input.context = some ctx →
      updatePayment opts r input =
        ((initiatePayment opts r input).1,
         .patchOrder input.data.id (updatePatchOps amt) :: (initiatePayment opts r input).2)) := by
  constructor
  · intro hctx
    simp [updatePayment, hconv, hpatch, updateFallback, initiatePayment, hctx]
  · intro ctx hctx
    have hnothrow : isThrown (initiatePayment opts r input).1 = false := by
      unfold initiatePayment
      rw [hctx, hconv]
      repeat' first
      | split
      | simp_all [isThrown]
      all_goals
        rename_i heqc
        split at heqc <;> simp_all
    simp only [updatePayment, hconv, hpatch, updateFallback]
    rcases hini : initiatePayment opts r input with ⟨out, calls⟩
    cases out with
    | ok v => simp
    | err ne => simp
    | thrown ex => rw [hini] at hnothrow; simp [isThrown] at hnothrow

/-- Witness for C7: with a failing patch, the no-context input yields
the error wrapping the ORIGINAL patch failure, and the full input yields
exactly the fallback `initiatePayment` outcome. -/
theorem updatePayment_fallback_wrapsOriginal_inst :
    updatePayment { capture := false } remotePatchDown inputNoContext =
      (.err (buildError "An error occurred in updatePayment" patchErr),
       [.patchOrder "sessA" (updatePatchOps usd10)]) ∧
    updatePayment { capture := false } remotePatchDown inputFull =
      ((initiatePayment { capture := false } remotePatchDown inputFull).1,
       .patchOrder "sessA" (updatePatchOps usd10) ::
         (initiatePayment { capture := false } remotePatchDown inputFull).2) :=
  ⟨(updatePayment_fallback_wrapsOriginal { capture := false } remotePatchDown inputNoContext
      usd10 patchErr (by decide) (by decide)).1 rfl,
   (updatePayment_fallback_wrapsOriginal { capture := false } remotePatchDown inputFull
      usd10 patchErr (by decide) (by decide)).2 { session_id := some "sess1" } rfl⟩

/-- Counterexample for C8: with no `"up"` link, `retrieveOrderFromAuth`
does NOT return null — the unchecked `link.href` access throws a raw
`TypeError` (and no remote call is issued). -/
theorem retrieveOrderFromAuth_noUp_cex :
    retrieveOrderFromAuth remoteOk authNoUp =
      (.thrown (.typeError "Cannot read properties of undefined (reading href)"), []) := by
  decide

/-- Claim C8 amended: with no `"up"` link the method throws a raw
`TypeError` without any remote call (it does not return null); when an
`"up"` link with an href exists, the trailing path segment of the href
is the order id: if that segment is empty the method returns null with
no remote call, otherwise it fetches that order (and a remote failure
escapes raw, there being no catch). -/
theorem retrieveOrderFromAuth_upLink (r : Remote) (authorization : AuthorizationResource) :
    (authorization.links.find? (fun l => l.rel == some "up") = none →
      retrieveOrderFromAuth r authorization =
        (.thrown (.typeError "Cannot read properties of undefined (reading href)"), [])) ∧
    (∀ link href, authorization.links.find? (fun l => l.rel == some "up") = some link →
      link.href = some href →
      (((splitSlash href).getLast?.getD "" = "" →
          retrieveOrderFromAuth r authorization = (.ok none, [])) ∧
       (∀ oid, (splitSlash href).getLast?.getD "" = oid → oid ≠ "" →
         ((∀ o, r.getOrder oid = .ok o →
             retrieveOrderFromAuth r authorization = (.ok (some o), [.getOrder oid])) ∧
          (∀ e, r.getOrder oid = .error e →
             retrieveOrderFromAuth r authorization = (.thrown e, [.getOrder oid])))))) := by
  refine ⟨fun h => by simp [retrieveOrderFromAuth, h], ?_⟩
  intro link href hfind hhref
  refine ⟨fun hempty => by simp [retrieveOrderFromAuth, hfind, hhref, hempty], ?_⟩
  intro oid hoid hne
  constructor
  · intro o hget
    simp [retrieveOrderFromAuth, hfind, hhref, hoid, hne, hget]
  · intro e hget
    simp [retrieveOrderFromAuth, hfind, hhref, hoid, hne, hget]

/-- Witness for amended C8: the trailing segment `ORD9` is fetched. -/
theorem retrieveOrderFromAuth_upLink_inst :
    retrieveOrderFromAuth remoteOk authWithUp = (.ok (some orderApproved), [.getOrder "ORD9"]) :=
  (((retrieveOrderFromAuth_upLink remoteOk authWithUp).2
      { rel := some "up", href := some "https://api.test/v2/checkout/orders/ORD9" }
      "https://api.test/v2/checkout/orders/ORD9" (by decide) rfl).2
    "ORD9" (by decide) (by decide)).1 orderApproved (by decide)

/-- Counterexample for C5: a capture EXISTS (in the second purchase
unit), yet `refundPayment` issues zero remote calls and returns a
`NormalizedError`, because the code reads the first capture of the FIRST
unit, whose captures list is absent. -/
theorem refundPayment_laterUnit_cex :
    (refundPayment remoteOk sdMismatch 10).2 = [] ∧
    isErr (refundPayment remoteOk sdMismatch 10).1 = true := by decide

/-- Claim C5 amended: when no purchase unit has a truthy captures list,
`refundPayment` issues zero remote calls and returns a
`NormalizedError` — with the uncaptured-refund message when a first
purchase unit exists (with an empty unit list the normalized error wraps
the property-access `TypeError` instead); when the FIRST purchase unit
has a non-empty captures list, the refund amount is formatted in that
unit's own currency, exactly one refund is issued against its first
capture id and, on success, the order is re-retrieved and returned; when
a capture exists only in a later unit, zero remote calls are issued and
a `NormalizedError` is returned. -/
theorem refundPayment_branches (r : Remote) (sd : PaypalOrder) (amt : Rat) :
    ((sd.purchase_units.any fun pu => capturesTruthy pu.payments.captures) = false →
      (refundPayment r sd amt).2 = [] ∧
      (sd.purchase_units ≠ [] →
        (refundPayment r sd amt).1 =
          .err (buildError "An error occurred in refundPayment"
            (.jsError "Cannot refund an uncaptured payment"))) ∧
      isErr (refundPayment r sd amt).1 = true) ∧
    (∀ pu rest c cs a, sd.purchase_units = pu :: rest →
      pu.payments.captures = some (c :: cs) →
      convertAmount amt pu.amount.currency_code = .ok a →
      ((refundPayment r sd amt).2.head? = some (.refundPayment c.id (some a)) ∧
       (r.refundPayment c.id (some a) = .ok () →
         refundPayment r sd amt =
           (.ok (retrievePaymentData r sd).1,
            [.refundPayment c.id (some a), .getOrder sd.id])))) ∧
    ((sd.purchase_units.any fun pu => capturesTruthy pu.payments.captures) = true →
      ∀ pu rest, sd.purchase_units = pu :: rest →
      capturesTruthy pu.payments.captures = false →
      (refundPayment r sd amt).2 = [] ∧ isErr (refundPayment r sd amt).1 = true) := by
  refine ⟨?_, ?_, ?_⟩
  · intro hany
    rcases hpu : sd.purchase_units with _ | ⟨pu, rest⟩ <;>
      rw [hpu] at hany <;>
      simp [refundPayment, hpu, hany, isErr]
  · intro pu rest c cs a hpu hcap hconv
    have hct : capturesTruthy pu.payments.captures = true := by
      simp [capturesTruthy, hcap]
    have hfirst : firstCaptureId sd.purchase_units = .ok c.id := by
      simp [firstCaptureId, hpu, hcap]
    constructor
    · unfold refundPayment
      rw [hpu]
      simp only [List.any_cons, hct, Bool.true_or]
      rw [← hpu, hfirst, hconv]
      cases hr : r.refundPayment c.id (some a) <;> simp [hr]
    · intro hok
      unfold refundPayment
      rw [hpu]
      simp only [List.any_cons, hct, Bool.true_or]
      rw [← hpu, hfirst, hconv]
      cases hg : r.getOrder sd.id <;>
        simp [hok, retrievePaymentData, hg]
  · intro hany pu rest hpu hfalse
    rcases hc : pu.payments.captures with _ | l
    · unfold refundPayment
      rw [hpu] at hany ⊢
      simp [hany, firstCaptureId, hc, isErr]
    · have hl : l = [] := by
        rcases l with _ | ⟨x, xs⟩
        · rfl
        · simp [capturesTruthy, hc] at hfalse
      subst hl
      unfold refundPayment
      rw [hpu] at hany ⊢
      simp [hany, firstCaptureId, hc, isErr]

/-- Witness for amended C5 at the three branch shapes. -/
theorem refundPayment_branches_inst :
    ((refundPayment remoteOk sdAuthOnly 10).1 =
      .err (buildError "An error occurred in refundPayment"
        (.jsError "Cannot refund an uncaptured payment")) ∧
     (refundPayment remoteOk sdAuthOnly 10).2 = []) ∧
    refundPayment remoteOk sdCaptured 10 =
      (.ok (retrievePaymentData remoteOk sdCaptured).1,
       [.refundPayment "CAP1" (some usd10), .getOrder "sessC"]) ∧
    ((refundPayment remoteOk sdMismatch 10).2 = [] ∧
     isErr (refundPayment remoteOk sdMismatch 10).1 = true) := by
  have h1 := (refundPayment_branches remoteOk sdAuthOnly 10).1 (by decide)
  have h2 := ((refundPayment_branches remoteOk sdCaptured 10).2.1 puCapturedUnit []
      { id := "CAP1" } [] usd10 (by decide) (by decide) (by decide)).2 (by decide)
  have h3 := (refundPayment_branches remoteOk sdMismatch 10).2.2 (by decide) puAuthOnly
      [puCapturedUnit] (by decide) (by decide)
  exact ⟨⟨h1.2.1 (by decide), h1.1⟩, h2, h3⟩

/-- The retrieval data flow always issues exactly the one order read. -/
theorem retrievePaymentData_calls (r : Remote) (sd : PaypalOrder) :
    (retrievePaymentData r sd).2 = [.getOrder sd.id] := by
  unfold retrievePaymentData
  cases r.getOrder sd.id <;> simp

/-- Counterexample for C4: the session has a purchase unit with a
non-empty captures list (the second one), yet `cancelPayment` issues NO
refund call at all — it returns a `NormalizedError`, because the first
unit carries no captures and the code reads the first capture of the
first unit. -/
theorem cancelPayment_firstUnit_cex :
    (cancelPayment remoteOk sdMismatch).2.filter isRefundCall = [] ∧
    isErr (cancelPayment remoteOk sdMismatch).1 = true := by decide

/-- Claim C4 amended: outside the idempotent short-circuit, when the
FIRST purchase unit has a non-empty captures list, exactly one refund is
issued against its first capture id and never a void call, and on refund
success the order is re-retrieved and returned; when no unit has a
truthy captures list and the first unit has an authorization, exactly
one void is issued against that first authorization id and never a
refund, re-retrieving on success; when a capture exists only in a later
unit, a `NormalizedError` is returned with zero mutation calls. -/
theorem cancelPayment_branches (r : Remote) (sd order : PaypalOrder)
    (h : r.getOrder sd.id = .ok order)
    (hsc : ¬(order.status = some PaypalOrderStatus.VOIDED ∨
      (order.status = some PaypalOrderStatus.COMPLETED ∧ truthyStr order.invoice_id = true))) :
    (∀ pu rest c cs, sd.purchase_units = pu :: rest →
      pu.payments.captures = some (c :: cs) →
      ((cancelPayment r sd).2.filter isRefundCall = [.refundPayment c.id none] ∧
       (cancelPayment r sd).2.filter isVoidCall = [] ∧
       (r.refundPayment c.id none = .ok () →
         cancelPayment r sd =
           (.ok (retrievePaymentData r sd).1,
            [.getOrder sd.id, .refundPayment c.id none, .getOrder sd.id])))) ∧
    ((sd.purchase_units.any fun pu => capturesTruthy pu.payments.captures) = false →
      ∀ pu rest a as, sd.purchase_units = pu :: rest →
      pu.payments.authorizations = a :: as →
      ((cancelPayment r sd).2.filter isVoidCall = [.cancelAuthorizedPayment a.id] ∧
       (cancelPayment r sd).2.filter isRefundCall = [] ∧
       (r.cancelAuthorizedPayment a.id = .ok () →
         cancelPayment r sd =
           (.ok (retrievePaymentData r sd).1,
            [.getOrder sd.id, .cancelAuthorizedPayment a.id, .getOrder sd.id])))) ∧
    ((sd.purchase_units.any fun pu => capturesTruthy pu.payments.captures) = true →
      ∀ pu rest, sd.purchase_units = pu :: rest →
      capturesTruthy pu.payments.captures = false →
      ((cancelPayment r sd).2.filter isMutationCall = [] ∧
       isErr (cancelPayment r sd).1 = true)) := by
  refine ⟨?_, ?_, ?_⟩
  · intro pu rest c cs hpu hcap
    have hct : capturesTruthy pu.payments.captures = true := by
      simp [capturesTruthy, hcap]
    have hfirst : firstCaptureId (pu :: rest) = .ok c.id := by
      simp [firstCaptureId, hcap]
    unfold cancelPayment
    simp only [retrievePaymentData, h]
    rw [if_neg hsc]
    simp only [hpu, List.any_cons, hct, Bool.true_or, if_true, hfirst]
    cases hr : r.refundPayment c.id none <;>
      simp [hr, isRefundCall, isVoidCall, retrievePaymentData, h]
  · intro hany pu rest a as hpu hauth
    rw [hpu] at hany
    have hfirst : firstAuthorizationId (pu :: rest) = .ok a.id := by
      simp [firstAuthorizationId, hauth]
    unfold cancelPayment
    simp only [retrievePaymentData, h]
    rw [if_neg hsc]
    simp only [hpu, hany, if_false, Bool.false_eq_true, hfirst]
    cases hr : r.cancelAuthorizedPayment a.id <;>
      simp [hr, isRefundCall, isVoidCall, retrievePaymentData, h]
  · intro hany pu rest hpu hfalse
    rw [hpu] at hany
    have hcaperr : ∃ msg, firstCaptureId (pu :: rest) = .error (.typeError msg) := by
      rcases hc : pu.payments.captures with _ | l
      · exact ⟨"Cannot read properties of undefined (reading 0)", by simp [firstCaptureId, hc]⟩
      · rcases l with _ | ⟨x, xs⟩
        · exact ⟨"Cannot read properties of undefined (reading id)", by simp [firstCaptureId, hc]⟩
        · simp [capturesTruthy, hc] at hfalse
    rcases hcaperr with ⟨msg, hcaperr⟩
    unfold cancelPayment
    simp only [retrievePaymentData, h]
    rw [if_neg hsc]
    simp only [hpu, hany, if_true, hcaperr]
    simp [isMutationCall, isErr]

/-- Witness for amended C4 at the three branch shapes. -/
theorem cancelPayment_branches_inst :
    cancelPayment remoteOk sdCaptured =
      (.ok (retrievePaymentData remoteOk sdCaptured).1,
       [.getOrder "sessC", .refundPayment "CAP1" none, .getOrder "sessC"]) ∧
    cancelPayment remoteOk sdAuthOnly =
      (.ok (retrievePaymentData remoteOk sdAuthOnly).1,
       [.getOrder "sessA", .cancelAuthorizedPayment "AUTH1", .getOrder "sessA"]) ∧
    ((cancelPayment remoteOk sdMismatch).2.filter isMutationCall = [] ∧
     isErr (cancelPayment remoteOk sdMismatch).1 = true) := by
  have h1 := ((cancelPayment_branches remoteOk sdCaptured orderApproved (by decide)
      (by decide)).1 puCapturedUnit [] { id := "CAP1" } [] (by decide) (by decide)).2.2 (by decide)
  have h2 := ((cancelPayment_branches remoteOk sdAuthOnly orderApproved (by decide)
      (by decide)).2.1 (by decide) puAuthOnly [] { id := "AUTH1" } [] (by decide)
      (by decide)).2.2 (by decide)
  have h3 := (cancelPayment_branches remoteOk sdMismatch orderApproved (by decide)
      (by decide)).2.2 (by decide) puAuthOnly [puCapturedUnit] (by decide) (by decide)
  exact ⟨h1, h2, h3⟩

/-- Counterexample for C1: `capturePayment` on session data with an
empty `purchase_units` list lets a raw `TypeError` escape (the
authorization id is read before the try block) instead of returning a
`NormalizedError`. -/
theorem capturePayment_rawEscape_cex :
    (capturePayment remoteOk sdNoUnits).1 =
      .thrown (.typeError "Cannot read properties of undefined (reading payments)") := by
  decide

/-- Claim C1 amended: failures raised inside a lifecycle method's try
block are always returned as a `NormalizedError`, but code running
before (or without) a try block can let a raw exception escape:
`capturePayment` when the first purchase unit or its first authorization
is missing, `getPaymentStatus` and `cancelPayment` when the retrieval
fails, `initiatePayment` when the input carries no context, and
`getWebhookActionAndData` (which has no catch) when the first unit's
captures or authorizations are missing; `retrievePayment` stays the
acknowledged exception on the error-return side (it returns undefined
but never throws); `authorizePayment`, `deletePayment`,
`refundPayment`, `updatePayment` and `updatePaymentData` never let an
exception escape for any input. -/
theorem lifecycle_normalized_amended :
    (∀ opts r input ctx, input.context = some ctx →
      isThrown (initiatePayment opts r input).1 = false) ∧
    (∀ (r : Remote) sd order, r.getOrder sd.id = .ok order →
      isThrown (getPaymentStatus r sd).1 = false) ∧
    (∀ r sd, isThrown (authorizePayment r sd).1 = false) ∧
    (∀ (r : Remote) sd order, r.getOrder sd.id = .ok order →
      isThrown (cancelPayment r sd).1 = false) ∧
    (∀ r sd i, firstAuthorizationId sd.purchase_units = .ok i →
      isThrown (capturePayment r sd).1 = false) ∧
    (∀ r sd, isThrown (deletePayment r sd).1 = false) ∧
    (∀ r sd amt, isThrown (refundPayment r sd amt).1 = false) ∧
    (∀ r sd, isThrown (retrievePayment r sd).1 = false) ∧
    (∀ opts r input, isThrown (updatePayment opts r input).1 = false) ∧
    (∀ r sid data, isThrown (updatePaymentData r sid data).1 = false) ∧
    (∀ r wd pc pa, firstCaptureId wd.purchase_units = .ok pc →
      firstAuthorizationId wd.purchase_units = .ok pa →
      isThrown (getWebhookActionAndData r wd).1 = false) := by
  refine ⟨?_, ?_, ?_, ?_, ?_, ?_, ?_, ?_, ?_, ?_, ?_⟩
  · intro opts r input ctx hctx
    unfold initiatePayment
    rw [hctx]
    repeat' first
    | split
    | simp_all [isThrown]
    all_goals
      rename_i heqc
      split at heqc <;> simp_all
  · intro r sd order h
    simp [getPaymentStatus, retrievePaymentData, h, isThrown]
  · intro r sd
    unfold authorizePayment getPaymentStatus retrievePaymentData
    cases hg : r.getOrder sd.id <;> simp [hg, isThrown]
  · intro r sd order h
    unfold cancelPayment
    simp only [retrievePaymentData, h]
    repeat' first
    | split
    | simp_all [isThrown]
  · intro r sd i hfa
    unfold capturePayment
    rw [hfa]
    repeat' first
    | split
    | simp_all [isThrown, retrievePaymentData]
  · intro r sd
    simp [deletePayment, isThrown]
  · intro r sd amt
    unfold refundPayment
    repeat' first
    | split
    | simp_all [isThrown]
    all_goals
      rename_i heqc
      split at heqc <;> simp_all
  · intro r sd
    simp [retrievePayment, isThrown]
  · intro opts r input
    unfold updatePayment updateFallback initiatePayment
    repeat' first
    | split
    | simp_all [isThrown]
    all_goals
      rename_i heqc
      split at heqc <;> simp_all
  · intro r sid data
    unfold updatePaymentData
    split <;> simp [isThrown]
  · intro r wd pc pa hc ha
    rcases hpu : wd.purchase_units with _ | ⟨pu, rest⟩
    · simp [firstCaptureId, hpu] at hc
    · rcases hcap : pu.payments.captures with _ | l
      · simp [firstCaptureId, hpu, hcap] at hc
      · rcases l with _ | ⟨c0, cs⟩
        · simp [firstCaptureId, hpu, hcap] at hc
        · rcases hauth : pu.payments.authorizations with _ | ⟨a0, as0⟩
          · simp [firstAuthorizationId, hpu, hauth] at ha
          · simp [getWebhookActionAndData, hpu, hcap, hauth, isThrown]

/-- Witness for amended C1: every conjunct instantiated at a concrete
remote and input. -/
theorem lifecycle_normalized_amended_inst :
    isThrown (initiatePayment { capture := true } remoteOk inputFull).1 = false ∧
    isThrown (getPaymentStatus remoteOk sdAuthOnly).1 = false ∧
    isThrown (authorizePayment remoteOk sdAuthOnly).1 = false ∧
    isThrown (cancelPayment remoteOk sdAuthOnly).1 = false ∧
    isThrown (capturePayment remoteOk sdAuthOnly).1 = false ∧
    isThrown (deletePayment remoteOk sdAuthOnly).1 = false ∧
    isThrown (refundPayment remoteOk sdCaptured 10).1 = false ∧
    isThrown (retrievePayment remoteDown sdAuthOnly).1 = false ∧
    isThrown (updatePayment { capture := false } remotePatchDown inputNoContext).1 = false ∧
    isThrown (updatePaymentData remoteOk "sess1" []).1 = false ∧
    isThrown (getWebhookActionAndData remoteOk sdCaptured).1 = false := by
  have h := lifecycle_normalized_amended
  exact ⟨h.1 { capture := true } remoteOk inputFull { session_id := some "sess1" } rfl,
    h.2.1 remoteOk sdAuthOnly orderApproved (by decide),
    h.2.2.1 remoteOk sdAuthOnly,
    h.2.2.2.1 remoteOk sdAuthOnly orderApproved (by decide),
    h.2.2.2.2.1 remoteOk sdAuthOnly "AUTH1" (by decide),
    h.2.2.2.2.2.1 remoteOk sdAuthOnly,
    h.2.2.2.2.2.2.1 remoteOk sdCaptured 10,
    h.2.2.2.2.2.2.2.1 remoteDown sdAuthOnly,
    h.2.2.2.2.2.2.2.2.1 { capture := false } remotePatchDown inputNoContext,
    h.2.2.2.2.2.2.2.2.2.1 remoteOk "sess1" [],
    h.2.2.2.2.2.2.2.2.2.2 remoteOk sdCaptured "CAP1" "AUTH2" (by decide) (by decide)⟩
